import Mathlib

/-!
Shallow embedding of the MIDI-to-OSC bridge
(`crates/raug/examples/midi-osc-server.py`).

The script reads raw MIDI events from a pygame device, and for each raw
datum `(status, note, velocity)` sends an OSC message `/midi
[status, note, velocity]` followed by at most one semantic message chosen
by `match status & 0xF0`.  The event loop polls, processes a batch,
sleeps, and shuts down through a `try / except KeyboardInterrupt /
finally` block that closes the device.

MIDI bytes are modelled as `Nat` (pygame delivers non-negative byte
values); Python's `&`, `<<`, `|` are `Nat.land`, `Nat.shiftLeft`,
`Nat.lor`.
-/

namespace MidiOsc

/-- One raw MIDI datum as unpacked by the script:
`status, note, velocity, _ = data`. -/
structure RawMidiDatum where
  status : Nat
  note : Nat
  velocity : Nat
deriving DecidableEq, Repr

/-- An OSC message as built by `osc_client.send_message(address, args)`. -/
structure OscMessage where
  address : String
  args : List Nat
deriving DecidableEq, Repr

/-- The semantic classification of a raw datum, following the spec's
`SemanticEvent` data model; the classification logic is the source's
`match status & 0xF0` (lines 67-80). -/
inductive SemanticEvent where
  | NoteOn (note velocity : Nat)
  | NoteOff (note velocity : Nat)
  | ControlChange (controller value : Nat)
  | PitchBend (value : Nat)
  | Unrecognized
deriving DecidableEq, Repr

/-- Decoder view of the source's `match status & 0xF0` statement.  The
guards are the source's case patterns in source order:
`case 0x90 if velocity > 0`, `case 0x80 | 0x90`, `case 0xB0`,
`case 0xE0`, and the implicit no-op default. -/
def decode (d : RawMidiDatum) : SemanticEvent :=
  let nib := d.status &&& 0xF0
  if nib = 0x90 ∧ d.velocity > 0 then .NoteOn d.note d.velocity
  else if nib = 0x80 ∨ nib = 0x90 then .NoteOff d.note d.velocity
  else if nib = 0xB0 then .ControlChange d.note d.velocity
  else if nib = 0xE0 then .PitchBend ((d.velocity <<< 7) ||| d.note)
  else .Unrecognized

/-- The OSC messages the `match` arms send for one datum (everything
after the raw `/midi` send), transcribed directly from lines 67-80. -/
def semanticMessages (d : RawMidiDatum) : List OscMessage :=
  let nib := d.status &&& 0xF0
  if nib = 0x90 ∧ d.velocity > 0 then [⟨"/note_on", [d.note, d.velocity]⟩]
  else if nib = 0x80 ∨ nib = 0x90 then [⟨"/note_off", [d.note, d.velocity]⟩]
  else if nib = 0xB0 then [⟨"/control_change", [d.note, d.velocity]⟩]
  else if nib = 0xE0 then [⟨"/pitch_bend", [(d.velocity <<< 7) ||| d.note]⟩]
  else []

/-- The messages the spec's dispatcher assigns to each semantic variant
(spec section 4.3). -/
def eventMessages : SemanticEvent → List OscMessage
  | .NoteOn n v => [⟨"/note_on", [n, v]⟩]
  | .NoteOff n v => [⟨"/note_off", [n, v]⟩]
  | .ControlChange c v => [⟨"/control_change", [c, v]⟩]
  | .PitchBend v => [⟨"/pitch_bend", [v]⟩]
  | .Unrecognized => []

/-- All sends for one datum, in source order: the raw `/midi`
pass-through (line 64) followed by the semantic message, if any. -/
def dispatchDatum (d : RawMidiDatum) : List OscMessage :=
  ⟨"/midi", [d.status, d.note, d.velocity]⟩ :: semanticMessages d

/-- The inner `for event in midi_events` loop: sends accumulate in
arrival order. -/
def processBatch (events : List RawMidiDatum) : List OscMessage :=
  events.foldl (fun acc d => acc ++ dispatchDatum d) []

/-- The decomposition used by the spec (pure decoder, then per-variant
dispatch) computes exactly the sends of the source's fused `match`. -/
theorem semanticMessages_eq_eventMessages_decode (d : RawMidiDatum) :
    semanticMessages d = eventMessages (decode d) := by
  unfold semanticMessages decode
  dsimp only
  split_ifs <;> rfl

/-! ## Event-loop model

The `while True` loop (lines 58-82) wrapped in
`try / except KeyboardInterrupt / finally` (lines 56-88).

One loop iteration: `if midi_input.poll(): ... read(10) ... for event:`
send the datum's messages; then `time.sleep(0.01)` unconditionally.

The environment is a script: one entry per iteration, `some events` when
`poll()` returns true and `read(10)` yields `events`, `none` when
`poll()` returns false.  A run ends when the script is exhausted, which
models a `KeyboardInterrupt` delivered at the next iteration; `failAt =
some k` makes the k-th `send_message` call (0-based, counted across the
whole run) raise an exception, modelling a UDP send failure. -/

/-- The log calls the script can make (`logger.error`/`logger.info`);
per-send `logger.info` lines are omitted, only the lifecycle entries
needed by the claims are tracked. -/
inductive LogEntry where
  | noInputDevice            -- "No MIDI input device found."  (line 46)
  | usingDevice (id : Int)   -- "Using MIDI input device ID …" (line 52)
  | shuttingDown             -- "Shutting down server."        (line 84)
  | serverClosed             -- "Server closed."               (line 88)
deriving DecidableEq, Repr

/-- What one iteration of the `while` loop did. -/
structure IterTrace where
  /-- True when `poll()` returned true, so the batch-processing branch ran. -/
  processed : Bool
  /-- messages actually handed to `send_message` this iteration -/
  sent : List OscMessage
  /-- True when `time.sleep(0.01)` executed this iteration -/
  slept : Bool
deriving DecidableEq, Repr

/-- Observable outcome of running the loop plus its
`except KeyboardInterrupt` / `finally` epilogue. -/
structure LoopOutcome where
  iters : List IterTrace
  logs : List LogEntry
  /-- number of times `midi_input.close()` ran -/
  closeCount : Nat
  /-- number of times `pygame.midi.quit()` ran -/
  quitCount : Nat
  /-- some `send_message` call raised -/
  raised : Bool
  /-- True when `main` returned normally (process exit status 0) -/
  exitOk : Bool
deriving DecidableEq, Repr

/-- Send a list of messages one `send_message` call at a time.  `c` is
the global send counter; if it reaches `failAt` the call raises before
transmitting.  Returns the messages actually sent, the new counter, and
whether a send raised. -/
def sendAll : Option Nat → Nat → List OscMessage → List OscMessage × Nat × Bool
  | _, c, [] => ([], c, false)
  | failAt, c, m :: ms =>
    if failAt = some c then ([], c, true)
    else
      match sendAll failAt (c + 1) ms with
      | (sent, c', raised) => (m :: sent, c', raised)

/-- Run the `while True` loop over a script of iterations.  Script
exhaustion models a `KeyboardInterrupt` at the top of the next
iteration; it is caught (line 83), logged, and the `finally` block
closes the device — `main` then returns, so the process exits 0.  A
raised send exception is not caught by `except KeyboardInterrupt`: the
`finally` block still runs, but the exception propagates out of `main`
(abnormal termination). -/
def runLoop (failAt : Option Nat) (c : Nat) :
    List (Option (List RawMidiDatum)) → LoopOutcome
  | [] =>
    { iters := [], logs := [.shuttingDown, .serverClosed],
      closeCount := 1, quitCount := 1, raised := false, exitOk := true }
  | it :: rest =>
    match sendAll failAt c (processBatch (it.getD [])) with
    | (sent, _, true) =>
      { iters := [⟨it.isSome, sent, false⟩], logs := [.serverClosed],
        closeCount := 1, quitCount := 1, raised := true, exitOk := false }
    | (sent, c', false) =>
      let o := runLoop failAt c' rest
      { o with iters := ⟨it.isSome, sent, true⟩ :: o.iters }

/-! ## Startup model

Device selection and session opening, lines 43-52.  The default input id
is the integer returned by `pygame.midi.get_default_input_id()` (−1
when there is none); `deviceExists id` says whether
`pygame.midi.Input(id)` succeeds — when it does not, pygame raises a
`MidiException` that nothing in the script catches. -/

/-- Result of the startup section (before the loop). -/
structure StartupOutcome where
  logs : List LogEntry
  /-- the opened input device id, when a session was created -/
  session : Option Int
  /-- Set when `sys.exit(code)` was called, with its code -/
  exit : Option Nat
  /-- True when `pygame.midi.Input` raised an uncaught exception -/
  raised : Bool
deriving DecidableEq, Repr

/-- Line 51, `midi_input = pygame.midi.Input(input_id)`, followed by the
"Using MIDI input device" log (line 52). -/
def openInput (id : Int) (deviceExists : Int → Bool) : StartupOutcome :=
  if deviceExists id then
    { logs := [.usingDevice id], session := some id, exit := none, raised := false }
  else
    { logs := [], session := none, exit := none, raised := true }

/-- Lines 43-52: if `--midi-device` is unset, use the default input id,
exiting 1 with a logged error when it is −1; otherwise use the explicit
id directly (no existence check). -/
def startup (midiDevice : Option Int) (defaultInputId : Int)
    (deviceExists : Int → Bool) : StartupOutcome :=
  match midiDevice with
  | none =>
    if defaultInputId = -1 then
      { logs := [.noInputDevice], session := none, exit := some 1, raised := false }
    else
      openInput defaultInputId deviceExists
  | some id => openInput id deviceExists

/-! ## Whole-program model

`main` after argument parsing (lines 29-88), as a function of the parsed
flags and the environment.  The inbound dispatcher (`disp`, lines 40-41)
maps `/print` to `print_handler`, but no OSC server is ever constructed
on `(args.ip, args.port)`, so nothing ever feeds messages to `disp` and
`print_handler` can never run. -/

/-- The parsed command-line flags. -/
structure Config where
  ip : String
  port : Int
  clientIp : String
  clientPort : Int
  midiDevice : Option Int
  listMidiDevices : Bool
deriving DecidableEq, Repr

/-- Observable outcome of one whole run of `main`. -/
structure ProgramOutcome where
  /-- addresses registered on the inbound dispatcher `disp` -/
  handlersMapped : List String
  /-- number of times `print_handler` was invoked; no server is ever
  attached to `disp`, so no code path invokes it -/
  printHandlerCalls : Nat
  startupLogs : List LogEntry
  /-- The `(host, port)` the UDP client sends to, when the loop was reached -/
  clientEndpoint : Option (String × Int)
  loop : Option LoopOutcome
  /-- Set when `sys.exit(code)` ran before the loop -/
  exit : Option Nat
  /-- an uncaught exception escaped `main` during startup -/
  startupRaised : Bool
deriving DecidableEq, Repr

/-- Model of `main` after `args = parser.parse_args()`: the listing branch
(lines 31-38), dispatcher setup (lines 40-41), device selection and open
(lines 43-52), UDP client construction (line 54), then the loop. -/
def runProgram (cfg : Config) (defaultInputId : Int)
    (deviceExists : Int → Bool) (failAt : Option Nat)
    (script : List (Option (List RawMidiDatum))) : ProgramOutcome :=
  if cfg.listMidiDevices then
    { handlersMapped := [], printHandlerCalls := 0, startupLogs := [],
      clientEndpoint := none, loop := none, exit := some 0, startupRaised := false }
  else
    let s := startup cfg.midiDevice defaultInputId deviceExists
    match s.session with
    | none =>
      { handlersMapped := ["/print"], printHandlerCalls := 0,
        startupLogs := s.logs, clientEndpoint := none, loop := none,
        exit := s.exit, startupRaised := s.raised }
    | some _ =>
      { handlersMapped := ["/print"], printHandlerCalls := 0,
        startupLogs := s.logs,
        clientEndpoint := some (cfg.clientIp, cfg.clientPort),
        loop := some (runLoop failAt 0 script), exit := none,
        startupRaised := false }

/-! ## Helper lemmas -/

/-- Accumulating dispatches with `foldl` appends the per-datum blocks in
input order. -/
theorem foldl_dispatch_eq (l : List RawMidiDatum) (acc : List OscMessage) :
    l.foldl (fun a d => a ++ dispatchDatum d) acc
      = acc ++ (l.map dispatchDatum).flatten := by
  induction l generalizing acc with
  | nil => simp
  | cons d l ih => simp [ih]

/-- Without a failure, `sendAll` transmits every message and advances
the counter by the batch size. -/
theorem sendAll_none (c : Nat) (msgs : List OscMessage) :
    sendAll none c msgs = (msgs, c + msgs.length, false) := by
  induction msgs generalizing c with
  | nil => simp [sendAll]
  | cons m ms ih =>
    simp [sendAll, ih]
    omega

/-! ## Claims -/

/-- C1: the decoder classifies exactly by the status-nibble table:
`0x90` with positive velocity is `NoteOn`, `0x90` with zero velocity and
`0x80` with any velocity are `NoteOff`, `0xB0` is `ControlChange`,
`0xE0` is `PitchBend`, anything else is `Unrecognized`; decoding is
total and never produces a `NoteOn` with velocity 0. -/
theorem decode_status_nibble_table (d : RawMidiDatum) :
    (d.status &&& 0xF0 = 0x90 → d.velocity > 0 →
        decode d = .NoteOn d.note d.velocity) ∧
    (d.status &&& 0xF0 = 0x90 → d.velocity = 0 →
        decode d = .NoteOff d.note d.velocity) ∧
    (d.status &&& 0xF0 = 0x80 → decode d = .NoteOff d.note d.velocity) ∧
    (d.status &&& 0xF0 = 0xB0 →
        decode d = .ControlChange d.note d.velocity) ∧
    (d.status &&& 0xF0 = 0xE0 →
        decode d = .PitchBend ((d.velocity <<< 7) ||| d.note)) ∧
    (d.status &&& 0xF0 ≠ 0x80 → d.status &&& 0xF0 ≠ 0x90 →
     d.status &&& 0xF0 ≠ 0xB0 → d.status &&& 0xF0 ≠ 0xE0 →
        decode d = .Unrecognized) ∧
    (∀ n, decode d ≠ .NoteOn n 0) := by
  unfold decode
  dsimp only
  refine ⟨?_, ?_, ?_, ?_, ?_, ?_, ?_⟩
  · intro h hv; rw [if_pos ⟨h, hv⟩]
  · intro h hv; split_ifs <;> simp_all
  · intro h; split_ifs <;> simp_all
  · intro h; split_ifs <;> simp_all
  · intro h; split_ifs <;> simp_all
  · intro h80 h90 hB0 hE0; split_ifs <;> simp_all
  · intro n; split_ifs <;> simp_all; omega

/-- C1 witness: the table evaluated at one concrete datum per row. -/
theorem decode_status_nibble_table_witness :
    decode ⟨0x90, 60, 100⟩ = .NoteOn 60 100 ∧
    decode ⟨0x92, 60, 0⟩ = .NoteOff 60 0 ∧
    decode ⟨0x85, 60, 100⟩ = .NoteOff 60 100 ∧
    decode ⟨0xB3, 7, 42⟩ = .ControlChange 7 42 ∧
    decode ⟨0xE0, 0, 0x40⟩ = .PitchBend 8192 ∧
    decode ⟨0xA0, 1, 2⟩ = .Unrecognized ∧
    decode ⟨0x90, 60, 0⟩ ≠ .NoteOn 60 0 :=
  ⟨(decode_status_nibble_table ⟨0x90, 60, 100⟩).1 (by decide) (by decide),
   (decode_status_nibble_table ⟨0x92, 60, 0⟩).2.1 (by decide) rfl,
   (decode_status_nibble_table ⟨0x85, 60, 100⟩).2.2.1 (by decide),
   (decode_status_nibble_table ⟨0xB3, 7, 42⟩).2.2.2.1 (by decide),
   by
     have h := (decode_status_nibble_table ⟨0xE0, 0, 0x40⟩).2.2.2.2.1 (by decide)
     rw [h]; decide,
   (decode_status_nibble_table ⟨0xA0, 1, 2⟩).2.2.2.2.2.1
     (by decide) (by decide) (by decide) (by decide),
   (decode_status_nibble_table ⟨0x90, 60, 0⟩).2.2.2.2.2.2 60⟩

/-- C2: every processed datum yields exactly one `/midi` message,
carrying the three bytes unmodified, and it comes before any semantic
message for the same datum. -/
theorem raw_passthrough_first_and_unique (d : RawMidiDatum) :
    (dispatchDatum d).head?
      = some ⟨"/midi", [d.status, d.note, d.velocity]⟩ ∧
    (dispatchDatum d).filter (fun m => m.address == "/midi")
      = [⟨"/midi", [d.status, d.note, d.velocity]⟩] := by
  refine ⟨rfl, ?_⟩
  unfold dispatchDatum semanticMessages
  dsimp only
  split_ifs <;> simp [List.filter]

/-- C3: for a `0xE0`-nibble datum the dispatched `/pitch_bend` value is
`(velocity <<< 7) ||| note`; for 7-bit data bytes it lies in 0..16383;
and `note = 0x00, velocity = 0x40` reconstructs to 8192. -/
theorem pitch_bend_reconstruction (d : RawMidiDatum) :
    (d.status &&& 0xF0 = 0xE0 →
      semanticMessages d
        = [⟨"/pitch_bend", [(d.velocity <<< 7) ||| d.note]⟩] ∧
      (d.note < 128 → d.velocity < 128 →
        (d.velocity <<< 7) ||| d.note ≤ 16383)) ∧
    semanticMessages ⟨0xE0, 0x00, 0x40⟩ = [⟨"/pitch_bend", [8192]⟩] := by
  refine ⟨fun h => ⟨?_, fun hn hv => ?_⟩, by decide⟩
  · unfold semanticMessages
    dsimp only
    rw [h]
    norm_num
  · have e7 : (2 : Nat) ^ 7 = 128 := by norm_num
    have e14 : (2 : Nat) ^ 14 = 16384 := by norm_num
    have h1 : d.velocity <<< 7 < 2 ^ 14 := by
      rw [Nat.shiftLeft_eq, e7, e14]; omega
    have h2 : d.note < 2 ^ 14 := by rw [e14]; omega
    have h3 := Nat.or_lt_two_pow h1 h2
    rw [e14] at h3
    omega

/-- C3 witness: the theorem applied at the center-position datum. -/
theorem pitch_bend_reconstruction_witness :
    semanticMessages ⟨0xE0, 0, 0x40⟩
      = [⟨"/pitch_bend", [((0x40 : Nat) <<< 7) ||| 0]⟩] ∧
    ((0x40 : Nat) <<< 7) ||| 0 ≤ 16383 :=
  ⟨((pitch_bend_reconstruction ⟨0xE0, 0, 0x40⟩).1 (by decide)).1,
   ((pitch_bend_reconstruction ⟨0xE0, 0, 0x40⟩).1 (by decide)).2
     (by decide) (by decide)⟩

/-- C4: a datum whose status nibble is none of 0x80/0x90/0xB0/0xE0
decodes to `Unrecognized` and its dispatch is the raw `/midi`
pass-through alone. -/
theorem unrecognized_dispatches_only_raw (d : RawMidiDatum)
    (h80 : d.status &&& 0xF0 ≠ 0x80) (h90 : d.status &&& 0xF0 ≠ 0x90)
    (hB0 : d.status &&& 0xF0 ≠ 0xB0) (hE0 : d.status &&& 0xF0 ≠ 0xE0) :
    decode d = .Unrecognized ∧
    dispatchDatum d = [⟨"/midi", [d.status, d.note, d.velocity]⟩] := by
  constructor
  · unfold decode; dsimp only; split_ifs <;> simp_all
  · unfold dispatchDatum semanticMessages
    dsimp only
    split_ifs <;> simp_all

/-- C4 witness: a 0xA0-nibble (polyphonic aftertouch) datum. -/
theorem unrecognized_dispatches_only_raw_witness :
    decode ⟨0xA3, 1, 2⟩ = .Unrecognized ∧
    dispatchDatum ⟨0xA3, 1, 2⟩ = [⟨"/midi", [0xA3, 1, 2]⟩] :=
  unrecognized_dispatches_only_raw ⟨0xA3, 1, 2⟩
    (by decide) (by decide) (by decide) (by decide)

/-- C5: the messages of a batch are the per-datum dispatch blocks
joined in arrival order — no reordering, no coalescing — and batches
compose by concatenation. -/
theorem processBatch_preserves_order (l : List RawMidiDatum) :
    processBatch l = (l.map dispatchDatum).flatten ∧
    ∀ l', processBatch (l ++ l') = processBatch l ++ processBatch l' := by
  constructor
  · simpa using foldl_dispatch_eq l []
  · intro l'
    unfold processBatch
    rw [List.foldl_append]
    simp [foldl_dispatch_eq]

/-- C6 counterexample: with a failing send during the first iteration,
the loop does not continue — the second scripted iteration never runs,
`main` terminates abnormally, the device session is closed by the
`finally` block (it does not stay open), and the only log entry is the
`finally` block's "Server closed." (no failure is logged). -/
theorem send_failure_not_survived :
    (runLoop (some 0) 0 [some [⟨0x90, 60, 100⟩], none]).iters.length = 1 ∧
    (runLoop (some 0) 0 [some [⟨0x90, 60, 100⟩], none]).exitOk = false ∧
    (runLoop (some 0) 0 [some [⟨0x90, 60, 100⟩], none]).closeCount = 1 ∧
    (runLoop (some 0) 0 [some [⟨0x90, 60, 100⟩], none]).logs
      = [.serverClosed] := by
  decide

/-- C6 amended: a raised send exception aborts the loop — the run ends
abnormally (`main` does not return), the `finally` block still closes
the device exactly once, and the failure itself is never logged (the
only log entry is "Server closed."). -/
theorem send_failure_aborts_loop (failAt : Option Nat) (c : Nat)
    (script : List (Option (List RawMidiDatum)))
    (h : (runLoop failAt c script).raised = true) :
    (runLoop failAt c script).exitOk = false ∧
    (runLoop failAt c script).closeCount = 1 ∧
    (runLoop failAt c script).logs = [.serverClosed] := by
  induction script generalizing c with
  | nil => simp [runLoop] at h
  | cons it rest ih =>
    unfold runLoop at h ⊢
    rcases hs : sendAll failAt c (processBatch (it.getD [])) with ⟨sent, c', raised⟩
    rw [hs] at h
    cases raised with
    | true => exact ⟨rfl, rfl, rfl⟩
    | false =>
      dsimp only at h ⊢
      exact ih c' h

/-- C6 witness: the amended theorem at a concrete failing run. -/
theorem send_failure_aborts_loop_witness :
    (runLoop (some 0) 0 [some [⟨0x90, 60, 100⟩]]).exitOk = false ∧
    (runLoop (some 0) 0 [some [⟨0x90, 60, 100⟩]]).closeCount = 1 ∧
    (runLoop (some 0) 0 [some [⟨0x90, 60, 100⟩]]).logs = [.serverClosed] :=
  send_failure_aborts_loop (some 0) 0 [some [⟨0x90, 60, 100⟩]] (by decide)

/-- C7 counterexample: with `--midi-device 3` given and no device 3
existing, startup neither logs anything nor calls `sys.exit(1)` — it
raises an uncaught exception from `pygame.midi.Input` (the logged
exit-1 path is reserved for the missing-default-device case). -/
theorem explicit_missing_device_not_logged :
    startup (some 3) 0 (fun _ => false)
      = { logs := [], session := none, exit := none, raised := true } := by
  decide

/-- C7 amended: when an explicit device id is given that matches no
device, `pygame.midi.Input` raises an unhandled exception: no session is
created, nothing is logged, `sys.exit` is not called, and the process
terminates abnormally. -/
theorem explicit_missing_device_raises (id : Int) (defaultInputId : Int)
    (deviceExists : Int → Bool) (h : deviceExists id = false) :
    startup (some id) defaultInputId deviceExists
      = { logs := [], session := none, exit := none, raised := true } := by
  simp [startup, openInput, h]

/-- C7 witness: the amended theorem at a concrete missing device. -/
theorem explicit_missing_device_raises_witness :
    startup (some 7) (-1) (fun _ => false)
      = { logs := [], session := none, exit := none, raised := true } :=
  explicit_missing_device_raises 7 (-1) (fun _ => false) rfl

/-- C8: on every exit path of the running loop — clean interrupt or a
raised dispatch exception — `midi_input.close()` and
`pygame.midi.quit()` each run exactly once, and `main` returns normally
(process exit 0) precisely when no exception was raised, so a clean
interrupt exits 0. -/
theorem device_closed_exactly_once (failAt : Option Nat) (c : Nat)
    (script : List (Option (List RawMidiDatum))) :
    (runLoop failAt c script).closeCount = 1 ∧
    (runLoop failAt c script).quitCount = 1 ∧
    (runLoop failAt c script).exitOk = !(runLoop failAt c script).raised := by
  induction script generalizing c with
  | nil => exact ⟨rfl, rfl, rfl⟩
  | cons it rest ih =>
    unfold runLoop
    rcases sendAll failAt c (processBatch (it.getD [])) with ⟨sent, c', raised⟩
    cases raised with
    | true => exact ⟨rfl, rfl, rfl⟩
    | false =>
      simp only
      exact ih c'

/-- C9 counterexample: an iteration that processed a pending batch
nevertheless sleeps — `time.sleep(0.01)` sits after the `if` block, not
in an `else` arm — refuting "the sleep occurs only on iterations where
no events are pending". -/
theorem sleep_on_processing_iteration :
    ((runLoop none 0 [some [⟨0x90, 60, 100⟩]]).iters.all
      fun it => !(it.processed && it.slept)) = false := by
  decide

/-- C9 amended: the fixed sleep is unconditional — in a run without a
send failure, every iteration sleeps, whether or not it processed
events (only an iteration aborted by a raised send skips its sleep). -/
theorem sleep_every_iteration (c : Nat)
    (script : List (Option (List RawMidiDatum))) :
    ((runLoop none c script).iters.all fun it => it.slept) = true := by
  induction script generalizing c with
  | nil => rfl
  | cons it rest ih =>
    unfold runLoop
    rw [sendAll_none]
    simp only [List.all_cons, ih, Bool.and_true]

/-- C10: two runs fed the same environment and the same flags except
for `--ip` and `--port` have identical observable outcomes — in
particular the same messages to the client endpoint — and the `/print`
handler registered on the inbound dispatcher is never invoked, because
no server is ever attached to it. -/
theorem ip_port_noninterference (ip₁ ip₂ : String) (port₁ port₂ : Int)
    (clientIp : String) (clientPort : Int) (midiDevice : Option Int)
    (listFlag : Bool) (defaultInputId : Int) (deviceExists : Int → Bool)
    (failAt : Option Nat) (script : List (Option (List RawMidiDatum))) :
    runProgram ⟨ip₁, port₁, clientIp, clientPort, midiDevice, listFlag⟩
        defaultInputId deviceExists failAt script
      = runProgram ⟨ip₂, port₂, clientIp, clientPort, midiDevice, listFlag⟩
        defaultInputId deviceExists failAt script ∧
    (runProgram ⟨ip₁, port₁, clientIp, clientPort, midiDevice, listFlag⟩
        defaultInputId deviceExists failAt script).printHandlerCalls = 0 := by
  refine ⟨rfl, ?_⟩
  unfold runProgram
  dsimp only
  split
  · rfl
  · split <;> rfl

end MidiOsc
